import Mathlib

/-!
Verification development for the pue-gauge-demo repository.

The repository has two parts:
* `src/composables/useChartJSManager.ts` — a `ChartManager` class keeping a
  registry of chart instances keyed by DOM element id, with asynchronous,
  retry-based creation, update, resize and disposal operations.
* `src/components/PowerUsageGauge.vue` — a gauge component: tick-sequence
  generation, a custom `afterDraw` overlay painting ticks/labels/pointer, and
  reactivity wiring.

The embedding below models the manager as a state machine over an explicit
state record plus an explicit queue of scheduled timeout tasks (the browser
event loop is single-threaded; `setTimeout` callbacks are modelled as queued
tasks executed one at a time).  Machine-level JS values are modelled with
`ℚ` / `ℕ`; chart handles are opaque serial numbers.
-/

namespace PueGauge

/-- Result of `document.getElementById(id)` / `canvas.getContext("2d")` for a
given id: element absent, element present but no 2D context, or usable. -/
inductive CanvasStatus
  | missing
  | noContext
  | ok
deriving DecidableEq

/-- The DOM / chart-engine environment visible to one step of the manager:
which canvases resolve, and whether `new Chart(...)` throws. -/
structure Env where
  canvas : String → CanvasStatus
  constructFails : Bool

/-- `ChartConfiguration`: `options` and `data` as passed to the engine.
Option values are opaque scalars (booleans encoded as 0/1); the data payload
is the list of dataset values. Both are optional, matching the TS type as
used (`config.options || {}`, `if (config.data)`). -/
structure ChartConfiguration where
  options : Option (List (String × ℕ))
  data : Option (List ℚ)
deriving DecidableEq

/-- A constructed chart handle: opaque serial plus the mutable `options`,
`data` and a counter of `update()` redraw requests. -/
structure Chart where
  serial : ℕ
  options : List (String × ℕ)
  data : List ℚ
  updateCount : ℕ
deriving DecidableEq

/-- `new Chart(ctx, config)`. -/
def Chart.new (serial : ℕ) (cfg : ChartConfiguration) : Chart :=
  { serial := serial
    options := cfg.options.getD []
    data := cfg.data.getD []
    updateCount := 0 }

/-- Observable events of a manager run, in occurrence order. -/
inductive Event
  | destroyed (serial : ℕ)
  | constructed (id : String) (serial : ℕ)
  | warned (id : String)
  | errorLogged (id : String)
  | resolvedPromise (id : String)
deriving DecidableEq

/-- A scheduled `setTimeout` callback of `spawnChart`:
either another `tryCreateChart(retryCount)` poll, or the deferred
construction body. -/
inductive Task
  | retry (id : String) (cfg : ChartConfiguration) (retryCount : ℕ)
  | construct (id : String) (cfg : ChartConfiguration)
deriving DecidableEq

/-- Manager state: the two maps of the TS class, the resize-listener flag, a
fresh-serial counter, the queue of scheduled timeouts (delay ms, callback)
and the event log. -/
structure MgrState where
  chartInstances : List (String × Chart)
  initializingCharts : List String
  resizeListenerInstalled : Bool
  nextHandle : ℕ
  tasks : List (ℕ × Task)
  log : List Event
deriving DecidableEq

def emptyMgr : MgrState :=
  { chartInstances := []
    initializingCharts := []
    resizeListenerInstalled := false
    nextHandle := 0
    tasks := []
    log := [] }

/-- `Map.get` on an association list with string keys. -/
def lookupEntry {α : Type} : List (String × α) → String → Option α
  | [], _ => none
  | p :: t, k => if p.1 = k then some p.2 else lookupEntry t k

/-- `Map.set` / property assignment: update the entry in place if the key is
present, else append it. -/
def setEntry {α : Type} : List (String × α) → String → α → List (String × α)
  | [], k, v => [(k, v)]
  | p :: t, k, v => if p.1 = k then (k, v) :: t else p :: setEntry t k v

/-- `Map.delete k`. -/
def deleteEntry {α : Type} (l : List (String × α)) (k : String) : List (String × α) :=
  l.filter (fun p => !(p.1 == k))

/-- Delete an id from the in-flight set (`initializingCharts.delete(id)`). -/
def deleteFlag (l : List String) (id : String) : List String :=
  l.filter (fun s => !(s == id))

/-- One execution of `tryCreateChart(retryCount)` (lines 36-80 of
useChartJSManager.ts): poll the canvas, reschedule within the retry budgets
(10 at 50ms for a missing element, 20 at 100ms for a missing context), warn
and give up past the budget (clearing the in-flight flag and resolving), or
on success destroy any registered chart at `id` and defer construction by a
0ms timeout. -/
def tryCreateChart (env : Env) (id : String) (cfg : ChartConfiguration)
    (retryCount : ℕ) (st : MgrState) : MgrState :=
  match env.canvas id with
  | CanvasStatus.missing =>
    if retryCount < 10 then
      { st with tasks := st.tasks ++ [(50, Task.retry id cfg (retryCount + 1))] }
    else
      { st with log := st.log ++ [Event.warned id, Event.resolvedPromise id]
                initializingCharts := deleteFlag st.initializingCharts id }
  | CanvasStatus.noContext =>
    if retryCount < 20 then
      { st with tasks := st.tasks ++ [(100, Task.retry id cfg (retryCount + 1))] }
    else
      { st with log := st.log ++ [Event.warned id, Event.resolvedPromise id]
                initializingCharts := deleteFlag st.initializingCharts id }
  | CanvasStatus.ok =>
    match lookupEntry st.chartInstances id with
    | some oldChart =>
      { st with log := st.log ++ [Event.destroyed oldChart.serial]
                chartInstances := deleteEntry st.chartInstances id
                tasks := st.tasks ++ [(0, Task.construct id cfg)] }
    | none =>
      { st with tasks := st.tasks ++ [(0, Task.construct id cfg)] }

/-- The deferred construction body (lines 69-79): `new Chart` in a
try/catch, with a `finally` that clears the in-flight flag and resolves the
promise regardless of outcome. -/
def runConstruct (env : Env) (id : String) (cfg : ChartConfiguration)
    (st : MgrState) : MgrState :=
  let st1 :=
    if env.constructFails then
      { st with log := st.log ++ [Event.errorLogged id] }
    else
      { st with chartInstances := setEntry st.chartInstances id (Chart.new st.nextHandle cfg)
                nextHandle := st.nextHandle + 1
                log := st.log ++ [Event.constructed id st.nextHandle] }
  { st1 with initializingCharts := deleteFlag st1.initializingCharts id
             log := st1.log ++ [Event.resolvedPromise id] }

/-- Execute one scheduled timeout callback. -/
def runTask (env : Env) (t : Task) (st : MgrState) : MgrState :=
  match t with
  | Task.retry id cfg k => tryCreateChart env id cfg k st
  | Task.construct id cfg => runConstruct env id cfg st

/-- Drive the event loop: pop and run scheduled timeouts in order, up to
`fuel` of them. -/
def runTasks (env : Env) : ℕ → MgrState → MgrState
  | 0, st => st
  | Nat.succ fuel, st =>
    match st.tasks with
    | [] => st
    | t :: rest => runTasks env fuel (runTask env t.2 { st with tasks := rest })

/-- The synchronous prefix of `spawnChart(id, config)` (lines 28-83): bail
out if a creation for `id` is already in flight, otherwise set the flag and
run `tryCreateChart(0)` (the promise executor runs synchronously). -/
def spawnChart (env : Env) (id : String) (cfg : ChartConfiguration)
    (st : MgrState) : MgrState :=
  if st.initializingCharts.contains id then st
  else
    tryCreateChart env id cfg 0
      { st with initializingCharts := st.initializingCharts ++ [id] }

/-- `spawnCharts`: start every listed creation; the synchronous prefixes run
in list order. -/
def spawnCharts (env : Env) (cfgs : List (String × ChartConfiguration))
    (st : MgrState) : MgrState :=
  cfgs.foldl (fun s p => spawnChart env p.1 p.2 s) st

/-- `Object.assign(target, src)`: write each source entry into the target in
order, new keys appended, existing keys overwritten. -/
def objectAssign (target src : List (String × ℕ)) : List (String × ℕ) :=
  src.foldl (fun acc p => setEntry acc p.1 p.2) target

/-- The mutation `updateChartConfig` applies to a found chart: merge
`config.options || {}` into `chart.options`, replace `chart.data` when
`config.data` is supplied, then `chart.update()` (one redraw request). -/
def applyUpdate (c : Chart) (cfg : ChartConfiguration) : Chart :=
  let c1 := { c with options := objectAssign c.options (cfg.options.getD []) }
  let c2 := match cfg.data with
    | some d => { c1 with data := d }
    | none => c1
  { c2 with updateCount := c2.updateCount + 1 }

/-- `updateChartConfig(id, config)` (lines 91-108): look the chart up; when
absent just resolve (no mutation, no throw), otherwise apply the update. -/
def updateChartConfig (id : String) (cfg : ChartConfiguration)
    (st : MgrState) : MgrState :=
  match lookupEntry st.chartInstances id with
  | none => st
  | some c =>
    { st with chartInstances := setEntry st.chartInstances id (applyUpdate c cfg) }

/-- `dispose()` (lines 163-174): remove the window listener if installed and
destroy every registered chart, clearing the registry.  Note it touches
neither `initializingCharts` nor the scheduled timeouts. -/
def dispose (st : MgrState) : MgrState :=
  { st with resizeListenerInstalled := false
            chartInstances := []
            log := st.log ++ st.chartInstances.map (fun p => Event.destroyed p.2.serial) }

/-- `getChart(id)`. -/
def getChart (id : String) (st : MgrState) : Option Chart :=
  lookupEntry st.chartInstances id

def countResolved (log : List Event) : ℕ :=
  (log.filter fun e => match e with | Event.resolvedPromise _ => true | _ => false).length

def countConstructed (log : List Event) : ℕ :=
  (log.filter fun e => match e with | Event.constructed _ _ => true | _ => false).length

def totalUpdateCount (st : MgrState) : ℕ :=
  (st.chartInstances.map (fun p => p.2.updateCount)).sum

/-- An environment whose canvases all report the given status. -/
def mkEnv (cs : CanvasStatus) (cf : Bool) : Env :=
  { canvas := fun _ => cs, constructFails := cf }

def envOk : Env := mkEnv CanvasStatus.ok false

def envMissing : Env := mkEnv CanvasStatus.missing false

def envNoContext : Env := mkEnv CanvasStatus.noContext false

/-! ## Gauge component (src/components/PowerUsageGauge.vue) -/

/-- The configuration `initChart` passes to `spawnCharts` for the
`powerGauge` canvas: dataset values are the three segment widths
`[0.4, 0.4, 1.2]`; boolean options encoded as 0/1. -/
def gaugeConfig : ChartConfiguration :=
  { options := some [("responsive", 1), ("maintainAspectRatio", 0)]
    data := some [2/5, 2/5, 6/5] }

/-- Component-local state: the manager plus the module-level
`chartInstance` variable (the serial of the captured chart, or null). -/
structure GaugeComponent where
  mgr : MgrState
  chartInstance : Option ℕ
deriving DecidableEq

/-- `chart.update()` on the chart object whose serial is `s` (the registry
holds the same reference). -/
def chartUpdateBySerial (s : ℕ) (st : MgrState) : MgrState :=
  { st with chartInstances :=
      st.chartInstances.map (fun p =>
        if p.2.serial = s then (p.1, { p.2 with updateCount := p.2.updateCount + 1 }) else p) }

/-- `initChart()` (lines 159-205): dispose the manager, start
`spawnCharts` (not awaited — only its synchronous prefix has run), then
immediately read `chartManager.getChart("powerGauge") || null` into
`chartInstance`. -/
def initChart (env : Env) (g : GaugeComponent) : GaugeComponent :=
  let m1 := dispose g.mgr
  let m2 := spawnCharts env [("powerGauge", gaugeConfig)] m1
  { mgr := m2
    chartInstance := (getChart "powerGauge" m2).map (fun c => c.serial) }

/-- The `watch(value, ...)` callback (lines 208-211): return early when
`chartInstance` is null, else request a redraw on it. -/
def onValueChanged (g : GaugeComponent) : GaugeComponent :=
  match g.chartInstance with
  | none => g
  | some s => { g with mgr := chartUpdateBySerial s g.mgr }

/-- The component as it stands after `onMounted` ran `initChart` and the
event loop then executed the deferred construction (the canvas exists and
the engine does not throw). -/
def c4Mounted : GaugeComponent :=
  let g1 := initChart envOk { mgr := emptyMgr, chartInstance := none }
  { g1 with mgr := runTasks envOk 5 g1.mgr }

/-! ## Tick-sequence generation (PowerUsageGauge.vue lines 20-34) -/

/-- `parseFloat(x.toFixed(2))`: round to two decimals, ties toward the
larger integer numerator as ECMA `toFixed` specifies. -/
def round2 (q : ℚ) : ℚ := (⌊q * 100 + 1/2⌋ : ℚ) / 100

/-- The inner loop `for (s = 1; s < subStepCount; s++)`: the rounded
interpolations strictly between `prev` and `curr`. -/
def subTicks (prev curr : ℚ) (k : ℕ) : List ℚ :=
  (List.range (k - 1)).map
    (fun s : ℕ => round2 (prev + (curr - prev) * ((s : ℚ) + 1) / (k : ℚ)))

/-- Tail of the generation loop from index 1 on: each iteration pushes the
current major value and THEN the interpolations between the previous and
current major (the source pushes `majorTickValues[i]` before computing the
sub-steps of the interval ending at it). -/
def fullTickAux (k : ℕ) : ℚ → List ℚ → List ℚ
  | _, [] => []
  | prev, curr :: t => curr :: (subTicks prev curr k ++ fullTickAux k curr t)

/-- `fullTickValues` as the component builds it. -/
def fullTickValues (M : List ℚ) (k : ℕ) : List ℚ :=
  match M with
  | [] => []
  | m0 :: rest => m0 :: fullTickAux k m0 rest

/-- Modelled from the spec's words: between each consecutive pair of major
values, the interpolated values sit BETWEEN the two majors.  Tail helper. -/
def specAux (k : ℕ) : ℚ → List ℚ → List ℚ
  | _, [] => []
  | prev, curr :: t => subTicks prev curr k ++ curr :: specAux k curr t

/-- Modelled from the spec's words: the full tick sequence with the `k-1`
interpolated values placed between each consecutive pair of majors. -/
def specTickValues (M : List ℚ) (k : ℕ) : List ℚ :=
  match M with
  | [] => []
  | m0 :: rest => m0 :: specAux k m0 rest

/-- The component's major tick list. -/
def majorTickValues : List ℚ :=
  [1, 6/5, 7/5, 8/5, 9/5, 2, 11/5, 12/5, 13/5, 14/5, 3]

/-! ## Overlay draw routine (PowerUsageGauge.vue lines 39-157)

Every angle the routine computes is a rational multiple of π (the inputs
are rational and the only transcendental factor is the single `Math.PI`),
so angles are embedded as their rational coefficient of π. -/

/-- Line 58: `((dataset.rotation ?? 0) * Math.PI) / 88.4`, as a coefficient
of π.  The source divides by the magic constant 88.4, not 180. -/
def rotationRadCoef (rotation : ℚ) : ℚ := rotation / (884/10)

/-- Line 59: `((dataset.circumference ?? 360) * Math.PI) / 180`, as a
coefficient of π. -/
def circumferenceRadCoef (circumference : ℚ) : ℚ := circumference / 180

/-- Line 139: `(value - minValue) / (maxValue - minValue)`. -/
def pointerT (value minValue maxValue : ℚ) : ℚ :=
  (value - minValue) / (maxValue - minValue)

/-- Line 140: `rotationRad + pointerT * circumferenceRad`, as a coefficient
of π. -/
def pointerAngleCoef (rotation circumference value minValue maxValue : ℚ) : ℚ :=
  rotationRadCoef rotation + pointerT value minValue maxValue * circumferenceRadCoef circumference

/-- Modelled from the spec's words (section 4.2 step 5 with the standard
degree conversion): `rotation·π/180 + ((value-min)/(max-min))·sweep·π/180`,
as a coefficient of π. -/
def specPointerAngleCoef (rotation circumference value minValue maxValue : ℚ) : ℚ :=
  rotation / 180 + pointerT value minValue maxValue * (circumference / 180)

/-- The geometry the routine reads off the first rendered arc element. -/
structure ArcProps where
  x : ℚ
  y : ℚ
  innerRadius : ℚ
deriving DecidableEq

/-- Canvas paint operations the overlay emits.  Radial strokes and labels
are recorded by their angle (coefficient of π) and radii, from which the
Cartesian endpoints `(x + r·cos θ, y + r·sin θ)` are derived. -/
inductive DrawCmd
  | tickLine (angleCoef rStart rEnd : ℚ)
  | tickLabel (val : ℚ) (angleCoef labelRadius : ℚ)
  | pointer (angleCoef length : ℚ)
  | hub
deriving DecidableEq

/-- The per-segment body of the overlay (lines 78-136): for each major tick
inside the segment draw its line and label, then the minor ticks between the
previous and current major that fall inside the segment. -/
def segmentCmds (innerRadius startAngle segArc segFrom segTo : ℚ)
    (majors : List ℚ) (subStepCount : ℕ) : List DrawCmd :=
  majors.foldl
    (fun acc val =>
      if val < segFrom ∨ segTo < val then acc
      else
        let t := (val - segFrom) / (segTo - segFrom)
        let angle := startAngle + t * segArc
        let acc1 := acc ++
          [DrawCmd.tickLine angle (innerRadius - 5) (innerRadius - 20),
           DrawCmd.tickLabel val angle (innerRadius - 35)]
        let i := majors.indexOf val
        if 1 ≤ i then
          let prevVal := majors.getD (i - 1) 0
          acc1 ++ (List.range (subStepCount - 1)).foldl
            (fun acc2 (s : ℕ) =>
              let subVal := prevVal + (val - prevVal) * ((s : ℚ) + 1) / (subStepCount : ℚ)
              if subVal < segFrom ∨ segTo < subVal then acc2
              else
                let subT := (subVal - segFrom) / (segTo - segFrom)
                acc2 ++ [DrawCmd.tickLine (startAngle + subT * segArc)
                  (innerRadius - 5) (innerRadius - 12)])
            []
        else acc1)
    []

/-- `gaugeTickPlugin.afterDraw` (lines 41-157): abort when the first arc
element is absent, or when the center's `x` or `y` is falsy (equal to 0);
otherwise paint the per-segment ticks and labels, then the pointer needle
and the hub.  `rotation`/`circumference` are the dataset fields with their
`?? 0` / `?? 360` defaults; `value` is the reactive cell read at draw
time. -/
def afterDraw (arc : Option ArcProps) (rotation circumference : Option ℚ)
    (value : ℚ) : List DrawCmd :=
  match arc with
  | none => []
  | some a =>
    if a.x = 0 ∨ a.y = 0 then []
    else
      let innerRadius := a.innerRadius
      let minValue : ℚ := 1
      let maxValue : ℚ := 3
      let subStepCount : ℕ := 5
      let rotationRad := rotationRadCoef (rotation.getD 0)
      let circumferenceRad := circumferenceRadCoef (circumference.getD 360)
      let segments : List (ℚ × ℚ) := [(1, 7/5), (7/5, 9/5), (9/5, 3)]
      let body := segments.foldl
        (fun (p : List DrawCmd × ℚ) seg =>
          let segArc := ((seg.2 - seg.1) / (maxValue - minValue)) * circumferenceRad
          (p.1 ++ segmentCmds innerRadius p.2 segArc seg.1 seg.2 majorTickValues subStepCount,
           p.2 + segArc))
        ([], rotationRad)
      body.1 ++
        [DrawCmd.pointer (rotationRad + pointerT value minValue maxValue * circumferenceRad)
          (innerRadius - 45),
         DrawCmd.hub]

/-! ## Resize debounce (useChartJSManager.ts lines 140-158 and 197-208)

A small timer world: active `setTimeout` timers (id, fire time) whose
callback is `resizeCharts`, and the times at which `resizeCharts` actually
ran.  Timer ids start at 1 as in browsers. -/

structure ResizeWorld where
  nextTimerId : ℕ
  timers : List (ℕ × ℕ)
  fires : List ℕ
deriving DecidableEq

def clearTimeout (tid : ℕ) (w : ResizeWorld) : ResizeWorld :=
  { w with timers := w.timers.filter (fun p => !(p.1 == tid)) }

def setTimeout (fireTime : ℕ) (w : ResizeWorld) : ℕ × ResizeWorld :=
  (w.nextTimerId,
   { w with nextTimerId := w.nextTimerId + 1
            timers := w.timers ++ [(w.nextTimerId, fireTime)] })

/-- One invocation at time `now` of the closure `debounce(func, delay)`
returns (lines 199-207): clear the pending timer if the captured
`timeoutId` holds one, then schedule `func` at `now + delay` and remember
the new timer id. -/
def debounceInvoke (delay now : ℕ) (timeoutId : Option ℕ) (w : ResizeWorld) :
    Option ℕ × ResizeWorld :=
  let w1 := match timeoutId with
    | some tid => clearTimeout tid w
    | none => w
  let r := setTimeout (now + delay) w1
  (some r.1, r.2)

/-- The handler `setupResizeListener(delay)` installs (lines 149-155): on
EACH resize event it builds a fresh debounced closure (whose captured
`timeoutId` starts at null) and invokes it once, then discards it. -/
def resizeHandler (delay now : ℕ) (w : ResizeWorld) : ResizeWorld :=
  (debounceInvoke delay now none w).2

/-- Fire every timer due at or before `now` (each firing is one
`resizeCharts()` run). -/
def fireDue (now : ℕ) (w : ResizeWorld) : ResizeWorld :=
  { w with timers := w.timers.filter (fun p => !(p.2 ≤ now : Bool))
           fires := w.fires ++ (w.timers.filter (fun p => (p.2 ≤ now : Bool))).map (fun p => p.2) }

/-- Deliver resize events at the given (ascending) times against the
handler the source installs, firing due timers first; after the last event
let every remaining timer fire. -/
def runResizeScenario (delay : ℕ) : List ℕ → ResizeWorld → ResizeWorld
  | [], w => { w with timers := [], fires := w.fires ++ w.timers.map (fun p => p.2) }
  | t :: rest, w => runResizeScenario delay rest (resizeHandler delay t (fireDue t w))

/-- The same event sequence against a SINGLE shared debounced closure (how
the `debounce` combinator is meant to be used): the `timeoutId` state
persists across events. -/
def runSharedScenario (delay : ℕ) : List ℕ → Option ℕ → ResizeWorld → ResizeWorld
  | [], _, w => { w with timers := [], fires := w.fires ++ w.timers.map (fun p => p.2) }
  | t :: rest, st, w =>
    let r := debounceInvoke delay t st (fireDue t w)
    runSharedScenario delay rest r.1 r.2

def emptyResizeWorld : ResizeWorld := { nextTimerId := 1, timers := [], fires := [] }

/-- Five resize events whose gaps (150ms) are all below the 200ms delay,
run against the installed handler. -/
def c1CodeRun : ResizeWorld :=
  runResizeScenario 200 [0, 150, 300, 450, 600] emptyResizeWorld

/-- The same burst against one shared debounced closure. -/
def c1IntendedRun : ResizeWorld :=
  runSharedScenario 200 [0, 150, 300, 450, 600] none emptyResizeWorld

/-! ## Concrete scenarios used by the claims -/

/-- A full `spawnChart` run from a fresh manager in an arbitrary static
environment, driven to completion (30 timeouts cover the longest retry
chain, which is 20). -/
def c7Run (cs : CanvasStatus) (cf : Bool) : MgrState :=
  runTasks (mkEnv cs cf) 30 (spawnChart (mkEnv cs cf) "g" gaugeConfig emptyMgr)

/-- First of two back-to-back `spawnChart` calls for the same id. -/
def c5St1 : MgrState := spawnChart envOk "g" gaugeConfig emptyMgr

/-- Second call, issued while the first creation is still in flight. -/
def c5St2 : MgrState := spawnChart envOk "g" gaugeConfig c5St1

/-- A manager holding one chart for `"g"` (serial 7) and nothing else. -/
def c6St : MgrState :=
  { emptyMgr with chartInstances := [("g", Chart.new 7 gaugeConfig)] }

/-- `spawnChart` while the context is unavailable: the creation schedules a
retry and suspends. -/
def c9AfterSpawn : MgrState := spawnChart envNoContext "g" gaugeConfig emptyMgr

/-- The manager is disposed while that retry is still scheduled. -/
def c9Disposed : MgrState := dispose c9AfterSpawn

/-- The orphaned retry then fires in a world where the canvas has become
usable (the retry itself re-polls the DOM and runs the deferred
construction). -/
def c9Final : MgrState := runTasks envOk 2 c9Disposed

/-- A chart with pre-existing options and data, for update-merge checks. -/
def c8Chart : Chart :=
  { serial := 3, options := [("a", 1), ("b", 2)], data := [1], updateCount := 0 }

def c8St : MgrState := { emptyMgr with chartInstances := [("g", c8Chart)] }

/-- A partial update: overrides `"b"`, adds `"c"`, supplies no data. -/
def c8Cfg : ChartConfiguration :=
  { options := some [("b", 9), ("c", 7)], data := none }

/-! ## Helper lemmas -/

theorem runTasks_of_tasks_nil (env : Env) (fuel : ℕ) (st : MgrState)
    (h : st.tasks = []) : runTasks env fuel st = st := by
  cases fuel with
  | zero => rfl
  | succ n => simp [runTasks, h]

theorem countConstructed_append (l1 l2 : List Event) :
    countConstructed (l1 ++ l2) = countConstructed l1 + countConstructed l2 := by
  simp [countConstructed, List.filter_append]

theorem lookupEntry_setEntry_self {α : Type} (l : List (String × α)) (k : String) (v : α) :
    lookupEntry (setEntry l k v) k = some v := by
  induction l with
  | nil => simp [setEntry, lookupEntry]
  | cons p t ih =>
    by_cases h : p.1 = k
    · simp [setEntry, lookupEntry, h]
    · simp [setEntry, lookupEntry, h, ih]

theorem lookupEntry_setEntry_ne {α : Type} (l : List (String × α)) (k k' : String)
    (v : α) (h : k' ≠ k) : lookupEntry (setEntry l k v) k' = lookupEntry l k' := by
  induction l with
  | nil => simp [setEntry, lookupEntry, Ne.symm h]
  | cons p t ih =>
    by_cases hp : p.1 = k
    · simp [setEntry, lookupEntry, hp, Ne.symm h]
    · simp [setEntry, lookupEntry, hp, ih]

theorem lookupEntry_eq_none_of_not_mem {α : Type} (l : List (String × α)) (k : String)
    (h : k ∉ l.map Prod.fst) : lookupEntry l k = none := by
  induction l with
  | nil => rfl
  | cons p t ih =>
    simp only [List.map_cons, List.mem_cons] at h
    push_neg at h
    simp [lookupEntry, Ne.symm h.1, ih h.2]

theorem lookupEntry_objectAssign (t s : List (String × ℕ))
    (hs : (s.map Prod.fst).Nodup) (k : String) :
    lookupEntry (objectAssign t s) k =
      match lookupEntry s k with
      | some v => some v
      | none => lookupEntry t k := by
  induction s generalizing t with
  | nil => simp [objectAssign, lookupEntry]
  | cons p rest ih =>
    simp only [List.map_cons, List.nodup_cons] at hs
    have hstep : objectAssign t (p :: rest) = objectAssign (setEntry t p.1 p.2) rest := rfl
    rw [hstep, ih _ hs.2]
    by_cases h : p.1 = k
    · have hrest : lookupEntry rest k = none :=
        lookupEntry_eq_none_of_not_mem rest k (h ▸ hs.1)
      simp [lookupEntry, h, hrest, lookupEntry_setEntry_self, h ▸ lookupEntry_setEntry_self t p.1 p.2]
    · simp [lookupEntry, h, lookupEntry_setEntry_ne t p.1 k p.2 (fun hh => h hh.symm)]

/-! ## Claim theorems -/

/-- C1: the claim says a burst of resize events with gaps below the
debounce delay triggers exactly one `resizeCharts` run, at least `delay`
after the last event.  The handler `setupResizeListener` installs builds a
fresh debounced closure per event, so the five events at 0,150,300,450,600
with delay 200 produce five `resizeCharts` runs (one per event, each 200ms
after its own event), the first before the burst even ends; one shared
debounced closure (the combinator's intended use) would produce exactly one
run at 800. -/
theorem C1_resize_burst_fires_once_per_event :
    c1CodeRun.fires = [200, 350, 500, 650, 800] ∧
    c1CodeRun.fires.length = 5 ∧
    c1IntendedRun.fires = [800] := by decide

/-- C2 counterexample: for the strictly increasing major list `[1, 6/5]`
and `k = 4` the generated sequence is `[1, 6/5, 21/20, 11/10, 23/20]`,
which is not strictly increasing (the interpolations are pushed after the
second major of the pair, not between the two), refuting the claim as
stated. -/
theorem C2_full_ticks_counterexample :
    List.Chain' (· < ·) [(1 : ℚ), 6/5] ∧ (1 : ℕ) ≤ 4 ∧
    ¬ List.Chain' (· < ·) (fullTickValues [(1 : ℚ), 6/5] 4) := by
  have hev : fullTickValues [(1 : ℚ), 6/5] 4 = [1, 6/5, 21/20, 11/10, 23/20] := by
    norm_num [fullTickValues, fullTickAux, subTicks, round2, List.range_succ]
  refine ⟨by simp [List.chain'_cons]; norm_num, by norm_num, ?_⟩
  rw [hev]
  intro h
  have h2 : (6 : ℚ)/5 < 21/20 := h.tail.rel_head
  norm_num at h2

theorem subTicks_length (prev curr : ℚ) (k : ℕ) :
    (subTicks prev curr k).length = k - 1 := by
  unfold subTicks
  rw [List.length_map, List.length_range]

theorem fullTickAux_length (k : ℕ) (hk : 1 ≤ k) (rest : List ℚ) :
    ∀ prev, (fullTickAux k prev rest).length = rest.length * k := by
  induction rest with
  | nil => intro prev; simp [fullTickAux]
  | cons curr t ih =>
    intro prev
    simp only [fullTickAux, List.length_cons, List.length_append,
      subTicks_length, ih curr]
    cases k with
    | zero => omega
    | succ k0 => simp only [Nat.succ_sub_one, Nat.mul_succ, Nat.succ_mul]; omega

theorem fullTickAux_perm (k : ℕ) (rest : List ℚ) :
    ∀ prev, List.Perm (fullTickAux k prev rest) (specAux k prev rest) := by
  induction rest with
  | nil => intro prev; exact List.Perm.refl _
  | cons curr t ih =>
    intro prev
    have h1 : List.Perm (subTicks prev curr k ++ fullTickAux k curr t)
        (subTicks prev curr k ++ specAux k curr t) :=
      List.Perm.append_left _ (ih curr)
    exact List.Perm.trans (List.Perm.cons curr h1) List.perm_middle.symm

/-- C2 (amended): for every major list `M` and `k ≥ 1` the generated
sequence has length `|M| + (|M|-1)(k-1)` and is a permutation of the
sequence described by the spec (the `k-1` interpolations between each
consecutive pair); the code however emits each interpolation block after
the second major of its pair, so the sequence itself is not sorted. -/
theorem C2_full_ticks_length_and_content (M : List ℚ) (k : ℕ) (hk : 1 ≤ k) :
    (fullTickValues M k).length = M.length + (M.length - 1) * (k - 1) ∧
    List.Perm (fullTickValues M k) (specTickValues M k) := by
  constructor
  · cases M with
    | nil => simp [fullTickValues]
    | cons m rest =>
      simp only [fullTickValues, List.length_cons, fullTickAux_length k hk rest m]
      cases k with
      | zero => omega
      | succ k0 => simp only [Nat.succ_sub_one, Nat.mul_succ, Nat.succ_mul]; omega
  · cases M with
    | nil => exact List.Perm.refl _
    | cons m rest => exact List.Perm.cons m (fullTickAux_perm k rest m)

theorem C2_full_ticks_length_and_content_witness :
    (fullTickValues [(1 : ℚ), 6/5, 7/5] 4).length = 3 + (3 - 1) * (4 - 1) ∧
    List.Perm (fullTickValues [(1 : ℚ), 6/5, 7/5] 4)
      (specTickValues [(1 : ℚ), 6/5, 7/5] 4) :=
  C2_full_ticks_length_and_content [(1 : ℚ), 6/5, 7/5] 4 (by decide)

/-- C3: the overlay converts the dataset rotation to radians dividing by
the magic constant 88.4 (source line 58) instead of 180, so at rotation
260°, sweep 200°, min 1, max 3, value 1.4 the pointer angle is
`(484/153)·π` — the command `afterDraw` actually emits — which differs from
the claimed `(260·π/180) + 0.2·(200·π/180) = (5/3)·π`. -/
theorem C3_pointer_angle_magic_constant :
    pointerAngleCoef 260 200 (7/5) 1 3 = 484/153 ∧
    DrawCmd.pointer (484/153) 55 ∈
      afterDraw (some ⟨1, 1, 100⟩) (some 260) (some 200) (7/5) ∧
    specPointerAngleCoef 260 200 (7/5) 1 3 = 5/3 ∧
    pointerAngleCoef 260 200 (7/5) 1 3 ≠ specPointerAngleCoef 260 200 (7/5) 1 3 := by
  decide!

/-- C4: after mount the chart does get constructed and registered, but the
component captured `chartInstance` before the deferred construction ran, so
it is null and the `watch(value)` callback does nothing: a value change
requests no redraw on any chart, refuting the claim. -/
theorem C4_value_change_requests_no_redraw :
    getChart "powerGauge" c4Mounted.mgr ≠ none ∧
    c4Mounted.chartInstance = none ∧
    onValueChanged c4Mounted = c4Mounted ∧
    totalUpdateCount (onValueChanged c4Mounted).mgr = 0 := by decide!

/-- C5: a `spawnChart` call for an id whose creation is in flight returns
with the state untouched (registry, in-flight map and scheduled work all
unchanged), and two back-to-back calls for the same id construct exactly
one handle. -/
theorem C5_spawn_inflight_noop :
    (∀ (env : Env) (id : String) (cfg : ChartConfiguration) (st : MgrState),
      st.initializingCharts.contains id = true → spawnChart env id cfg st = st) ∧
    (c5St2 = c5St1 ∧
      countConstructed (runTasks envOk 5 c5St2).log = 1 ∧
      (runTasks envOk 5 c5St2).chartInstances.length = 1) := by
  constructor
  · intro env id cfg st h
    unfold spawnChart
    rw [if_pos h]
  · decide!

theorem C5_spawn_inflight_noop_witness :
    spawnChart envOk "g" gaugeConfig { emptyMgr with initializingCharts := ["g"] } =
      { emptyMgr with initializingCharts := ["g"] } :=
  C5_spawn_inflight_noop.1 envOk "g" gaugeConfig
    { emptyMgr with initializingCharts := ["g"] } (by decide)

/-- C7: whatever the static environment — canvas missing until the 10-retry
budget is spent, context unavailable until the 20-retry budget is spent,
construction succeeding, or construction throwing — the run terminates with
the in-flight map empty, the promise resolved exactly once, and no work
left scheduled. -/
theorem C7_every_path_clears_inflight (cs : CanvasStatus) (cf : Bool) :
    (c7Run cs cf).initializingCharts = [] ∧
    countResolved (c7Run cs cf).log = 1 ∧
    (c7Run cs cf).tasks = [] := by
  cases cs <;> cases cf <;> decide!

/-- C10: the overlay paints nothing when the first arc element is absent,
and also whenever the arc center's x or y coordinate equals 0 (the falsy
check on line 48); with a nonzero center it does paint. -/
theorem C10_afterDraw_falsy_center_guard :
    (∀ rot circ v, afterDraw none rot circ v = []) ∧
    (∀ rot circ v y r, afterDraw (some ⟨0, y, r⟩) rot circ v = []) ∧
    (∀ rot circ v x r, afterDraw (some ⟨x, 0, r⟩) rot circ v = []) ∧
    afterDraw (some ⟨1, 1, 100⟩) (some 260) (some 200) (7/5) ≠ [] := by
  refine ⟨fun _ _ _ => rfl, fun rot circ v y r => ?_, fun rot circ v x r => ?_, by decide!⟩
  · simp [afterDraw]
  · simp [afterDraw]

/-- C6: when `spawnChart` finds a usable canvas while a chart is already
registered for the id, the synchronous part logs the old handle's destroy
and deregisters it, with construction only scheduled as a single 0ms
timeout; running that one deferred timeout then constructs and registers
exactly one new chart.  The registry holds one entry for the id before the
call, zero between teardown and construction, and exactly one (the new
chart) afterwards. -/
theorem C6_destroy_before_construct (env : Env) (id : String)
    (cfg : ChartConfiguration) (c : Chart) (st : MgrState)
    (henv : env.canvas id = CanvasStatus.ok) (hfail : env.constructFails = false)
    (hreg : st.chartInstances = [(id, c)])
    (hinit : st.initializingCharts.contains id = false)
    (htasks : st.tasks = []) :
    spawnChart env id cfg st =
      { st with initializingCharts := st.initializingCharts ++ [id]
                chartInstances := []
                log := st.log ++ [Event.destroyed c.serial]
                tasks := [(0, Task.construct id cfg)] } ∧
    runTasks env 1 (spawnChart env id cfg st) =
      { st with initializingCharts := deleteFlag (st.initializingCharts ++ [id]) id
                chartInstances := [(id, Chart.new st.nextHandle cfg)]
                nextHandle := st.nextHandle + 1
                tasks := []
                log := st.log ++ [Event.destroyed c.serial,
                  Event.constructed id st.nextHandle, Event.resolvedPromise id] } := by
  have h1 : spawnChart env id cfg st =
      { st with initializingCharts := st.initializingCharts ++ [id]
                chartInstances := []
                log := st.log ++ [Event.destroyed c.serial]
                tasks := [(0, Task.construct id cfg)] } := by
    simp only [spawnChart, hinit, tryCreateChart, henv, hreg, htasks]
    simp [lookupEntry, deleteEntry]
  refine ⟨h1, ?_⟩
  rw [h1]
  simp only [runTasks, runTask, runConstruct, hfail]
  simp [setEntry]

theorem C6_destroy_before_construct_witness :
    spawnChart envOk "g" gaugeConfig c6St =
      { chartInstances := []
        initializingCharts := ["g"]
        resizeListenerInstalled := false
        nextHandle := 0
        tasks := [(0, Task.construct "g" gaugeConfig)]
        log := [Event.destroyed 7] } ∧
    runTasks envOk 1 (spawnChart envOk "g" gaugeConfig c6St) =
      { chartInstances := [("g", Chart.new 0 gaugeConfig)]
        initializingCharts := []
        resizeListenerInstalled := false
        nextHandle := 1
        tasks := []
        log := [Event.destroyed 7, Event.constructed "g" 0, Event.resolvedPromise "g"] } :=
  C6_destroy_before_construct envOk "g" gaugeConfig (Chart.new 7 gaugeConfig) c6St
    rfl rfl rfl rfl rfl

/-- C8: `updateChartConfig` on an unregistered id returns with the manager
state (registry and every chart) exactly unchanged and throws nothing; on a
registered chart it shallow-merges the supplied options into the chart's
options with new keys winning, replaces the data payload only when one is
supplied, requests one redraw, and leaves every other chart's entry
untouched. -/
theorem C8_update_missing_noop_and_merge :
    (∀ (st : MgrState) (id : String) (cfg : ChartConfiguration),
      lookupEntry st.chartInstances id = none → updateChartConfig id cfg st = st) ∧
    (∀ (st : MgrState) (id : String) (cfg : ChartConfiguration) (c : Chart),
      lookupEntry st.chartInstances id = some c →
      ((cfg.options.getD []).map Prod.fst).Nodup →
      updateChartConfig id cfg st =
        { st with chartInstances := setEntry st.chartInstances id (applyUpdate c cfg) } ∧
      (∀ k2 v, lookupEntry (cfg.options.getD []) k2 = some v →
        lookupEntry (applyUpdate c cfg).options k2 = some v) ∧
      (∀ k2, lookupEntry (cfg.options.getD []) k2 = none →
        lookupEntry (applyUpdate c cfg).options k2 = lookupEntry c.options k2) ∧
      (applyUpdate c cfg).data = cfg.data.getD c.data ∧
      (applyUpdate c cfg).updateCount = c.updateCount + 1 ∧
      (∀ id2, id2 ≠ id →
        lookupEntry (updateChartConfig id cfg st).chartInstances id2 =
          lookupEntry st.chartInstances id2)) := by
  constructor
  · intro st id cfg h
    unfold updateChartConfig
    rw [h]
  · intro st id cfg c hc hnodup
    have hupd : updateChartConfig id cfg st =
        { st with chartInstances := setEntry st.chartInstances id (applyUpdate c cfg) } := by
      unfold updateChartConfig
      rw [hc]
    have hopts : (applyUpdate c cfg).options = objectAssign c.options (cfg.options.getD []) := by
      unfold applyUpdate
      cases cfg.data <;> rfl
    refine ⟨hupd, ?_, ?_, ?_, ?_, ?_⟩
    · intro k2 v hv
      rw [hopts, lookupEntry_objectAssign _ _ hnodup, hv]
    · intro k2 hnone
      rw [hopts, lookupEntry_objectAssign _ _ hnodup, hnone]
    · unfold applyUpdate
      cases cfg.data <;> rfl
    · unfold applyUpdate
      cases cfg.data <;> rfl
    · intro id2 hne
      rw [hupd]
      exact lookupEntry_setEntry_ne _ _ _ _ hne

theorem C8_update_missing_noop_and_merge_witness :
    updateChartConfig "absent" c8Cfg emptyMgr = emptyMgr ∧
    updateChartConfig "g" c8Cfg c8St =
      { c8St with chartInstances := setEntry c8St.chartInstances "g" (applyUpdate c8Chart c8Cfg) } ∧
    lookupEntry (applyUpdate c8Chart c8Cfg).options "b" = some 9 ∧
    lookupEntry (applyUpdate c8Chart c8Cfg).options "a" = lookupEntry c8Chart.options "a" ∧
    (applyUpdate c8Chart c8Cfg).data = c8Chart.data ∧
    (applyUpdate c8Chart c8Cfg).updateCount = c8Chart.updateCount + 1 :=
  have h := C8_update_missing_noop_and_merge
  have hb := h.2 c8St "g" c8Cfg c8Chart rfl (by decide)
  ⟨h.1 emptyMgr "absent" c8Cfg rfl, hb.1, hb.2.1 "b" 9 rfl, hb.2.2.1 "a" rfl,
   hb.2.2.2.1, hb.2.2.2.2.1⟩

/-- One terminating or rescheduling step of an orphaned `tryCreateChart`
retry chain while the canvas stays missing, iterated to exhaustion: the
chain never touches the registry, never constructs, and drains. -/
theorem retryMissing_drain (env : Env) (id : String) (cfg : ChartConfiguration)
    (henv : env.canvas id = CanvasStatus.missing) :
    ∀ (n k d : ℕ) (st : MgrState), 10 ≤ k + n →
      (runTasks env (n + 1) { st with tasks := [(d, Task.retry id cfg k)] }).chartInstances
          = st.chartInstances ∧
      countConstructed (runTasks env (n + 1) { st with tasks := [(d, Task.retry id cfg k)] }).log
          = countConstructed st.log ∧
      (runTasks env (n + 1) { st with tasks := [(d, Task.retry id cfg k)] }).tasks = [] := by
  intro n
  induction n with
  | zero =>
    intro k d st hk
    have hk10 : ¬ k < 10 := by omega
    simp only [runTasks, runTask, tryCreateChart, henv, hk10, if_false]
    simp [countConstructed, List.filter_append]
  | succ m ih =>
    intro k d st hk
    by_cases hk10 : k < 10
    · have hstep : runTasks env (m + 1 + 1) { st with tasks := [(d, Task.retry id cfg k)] } =
          runTasks env (m + 1) { st with tasks := [(50, Task.retry id cfg (k + 1))] } := by
        conv_lhs => rw [runTasks]
        simp only [runTask, tryCreateChart, henv, hk10, if_true]
        rfl
      rw [hstep]
      exact ih (k + 1) 50 st (by omega)
    · have hterm : runTasks env (m + 1 + 1) { st with tasks := [(d, Task.retry id cfg k)] } =
          { st with tasks := []
                    log := st.log ++ [Event.warned id, Event.resolvedPromise id]
                    initializingCharts := deleteFlag st.initializingCharts id } := by
        conv_lhs => rw [runTasks]
        simp only [runTask, tryCreateChart, henv, hk10, if_false]
        rw [runTasks_of_tasks_nil]
        rfl
      rw [hterm]
      simp [countConstructed, List.filter_append]

/-- C9 (amended): `dispose` does not cancel a scheduled creation retry, and
the orphan is a registry-level no-op only while the drawing surface stays
missing: the chain just reschedules until its budget is exhausted,
constructs nothing, adds no registry entry, and drains (it does clear the
id's in-flight flag at the end).  When the surface has become available the
orphan instead runs the full creation path — see the counterexample. -/
theorem C9_orphan_retry_noop_when_canvas_missing (env : Env) (id : String)
    (cfg : ChartConfiguration) (k d : ℕ) (st : MgrState)
    (henv : env.canvas id = CanvasStatus.missing) :
    (runTasks env 11 { st with tasks := [(d, Task.retry id cfg k)] }).chartInstances
        = st.chartInstances ∧
    countConstructed (runTasks env 11 { st with tasks := [(d, Task.retry id cfg k)] }).log
        = countConstructed st.log ∧
    (runTasks env 11 { st with tasks := [(d, Task.retry id cfg k)] }).tasks = [] :=
  retryMissing_drain env id cfg henv 10 k d st (by omega)

theorem C9_orphan_retry_noop_witness :
    (runTasks envMissing 11
      { emptyMgr with tasks := [(100, Task.retry "g" gaugeConfig 1)] }).chartInstances = [] ∧
    countConstructed (runTasks envMissing 11
      { emptyMgr with tasks := [(100, Task.retry "g" gaugeConfig 1)] }).log = 0 ∧
    (runTasks envMissing 11
      { emptyMgr with tasks := [(100, Task.retry "g" gaugeConfig 1)] }).tasks = [] :=
  C9_orphan_retry_noop_when_canvas_missing envMissing "g" gaugeConfig 1 100 emptyMgr rfl

/-- C9 counterexample: the manager is disposed while a creation retry is
scheduled and the registry holds no entry for the id, yet when the orphaned
retry fires with the canvas now usable it runs the full creation path: a
chart is constructed and registered in the disposed manager, so the orphan
is not a pure no-op. -/
theorem C9_orphan_retry_counterexample :
    c9Disposed.chartInstances = [] ∧
    c9Disposed.tasks = [(100, Task.retry "g" gaugeConfig 1)] ∧
    countConstructed c9Final.log = 1 ∧
    getChart "g" c9Final ≠ none := by decide!

end PueGauge
